import Mathlib

/-!
Verification of the normalization and fetch logic of the profitability
dashboard (src/app.py). The annual table is built with pandas: after
`df.apply(pd.to_numeric, errors = coerce)` every cell of the annual
DataFrame is a float64, so a cell is modelled by `RVal`: a rational
number, NaN (the coercion of a missing value), or a signed infinity
(which float division by zero produces). The TTM row is built with plain
Python values, so its cells are modelled by `Option ℚ` (None or number).
Monetary data is modelled with exact rationals; every numeric operation
the code performs on them (addition, subtraction, absolute value,
division) is exact in float terms only up to rounding, which no claim
here depends on.
-/

set_option autoImplicit false

namespace Profitability

/-- A pandas float64 cell after `pd.to_numeric(errors = coerce)`:
NaN (missing), a signed infinity, or a finite value modelled as a rational. -/
inductive RVal where
  | nan : RVal
  | inf : Bool → RVal
  | num : ℚ → RVal
deriving DecidableEq

/-- IEEE-style float subtraction, as performed elementwise on pandas columns. -/
def RVal.sub : RVal → RVal → RVal
  | .num a, .num b => .num (a - b)
  | .nan, _ => .nan
  | _, .nan => .nan
  | .inf p, .inf q => if p = q then .nan else .inf p
  | .inf p, .num _ => .inf p
  | .num _, .inf q => .inf (!q)

/-- IEEE-style float addition, as performed elementwise on pandas columns. -/
def RVal.add : RVal → RVal → RVal
  | .num a, .num b => .num (a + b)
  | .nan, _ => .nan
  | _, .nan => .nan
  | .inf p, .inf q => if p = q then .inf p else .nan
  | .inf p, .num _ => .inf p
  | .num _, .inf q => .inf q

/-- Absolute value, as `Series.abs()`. -/
def RVal.abs : RVal → RVal
  | .nan => .nan
  | .inf _ => .inf true
  | .num a => .num (|a|)

/-- IEEE-style float division, as performed elementwise on pandas columns:
a nonzero value divided by zero gives a signed infinity, zero divided by
zero gives NaN, and NaN propagates. This is what the ratio columns at
lines 202-217 of src/app.py compute. -/
def RVal.div : RVal → RVal → RVal
  | .nan, _ => .nan
  | _, .nan => .nan
  | .inf _, .inf _ => .nan
  | .inf p, .num b => .inf (p == decide (0 ≤ b))
  | .num _, .inf _ => .num 0
  | .num a, .num b =>
      if b = 0 then (if a = 0 then .nan else .inf (decide (0 < a)))
      else .num (a / b)

/-- `Series.fillna(q)`: replace NaN by the constant `q`. -/
def RVal.fillna (v : RVal) (q : ℚ) : RVal :=
  match v with
  | .nan => .num q
  | w => w

/-- `Series.notna()`: true for every value except NaN (infinities are not NA). -/
def RVal.notna : RVal → Bool
  | .nan => false
  | _ => true

/-- `pd.to_numeric` coercion of a raw JSON cell: None becomes NaN. -/
def toRVal : Option ℚ → RVal
  | none => .nan
  | some q => .num q

/-- A metric dictionary of the raw document (`financials.annual` or
`financials.quarterly`): JSON object mapping metric keys to arrays of
numbers-or-null, modelled as an association list preserving key order. -/
abbrev MetricDict := List (String × List (Option ℚ))

/-- The raw QuickFS document as far as `process_historical_data` reads it.
`dates` models `annual["period_end_date"]` (with the `fiscal_year`
fallback already applied); `ttm` models the optional `financials.ttm`
block of the upstream data model, which the code never reads. Metadata
(company name, currency) is consumed only by the presentation layer and
is omitted. -/
structure RawDoc where
  dates : List String
  annual : MetricDict
  quarterly : MetricDict
  ttm : List (String × ℚ)
deriving DecidableEq

/-- `safe_get_list` (src/app.py line 135): walk the alias keys in order and
return the first entry that is present with a truthy (non-empty) list;
otherwise the empty list. -/
def safe_get_list (d : MetricDict) : List String → List (Option ℚ)
  | [] => []
  | k :: ks =>
    match d.find? (fun p => p.1 == k) with
    | some p => if p.2 ≠ [] then p.2 else safe_get_list d ks
    | none => safe_get_list d ks

/-- `align` (src/app.py line 168): pad a short array on the right with
None up to the axis length, truncate a long array to the first
axis-length entries. -/
def align (arr : List (Option ℚ)) (l : Nat) : List (Option ℚ) :=
  if arr.length < l then (arr ++ List.replicate (l - arr.length) none).take l
  else arr.take l

/-- The base (underived) cells of one annual row of the DataFrame built at
lines 170-188 of src/app.py, after the `pd.to_numeric` coercion. -/
structure BaseRow where
  rev : RVal
  gp : RVal
  op : RVal
  ebitda : RVal
  ni : RVal
  eps : RVal
  tax : RVal
  cfo : RVal
  capex : RVal
  fcfRep : RVal
  equity : RVal
  assets : RVal
  currLiab : RVal
  debt : RVal
deriving DecidableEq

/-- One annual column: resolve aliases in the annual dict, align to the
date axis, coerce to numeric. -/
def annualCol (doc : RawDoc) (keys : List String) : List RVal :=
  (align (safe_get_list doc.annual keys) doc.dates.length).map toRVal

/-- The annual base rows, one per entry of the period date axis,
index-aligned exactly as the DataFrame constructor zips the columns. -/
def baseRows (doc : RawDoc) : List BaseRow :=
  (List.range doc.dates.length).map (fun i =>
    { rev := (annualCol doc ["revenue"]).getD i .nan
      gp := (annualCol doc ["gross_profit"]).getD i .nan
      op := (annualCol doc ["operating_income"]).getD i .nan
      ebitda := (annualCol doc ["ebitda"]).getD i .nan
      ni := (annualCol doc ["net_income"]).getD i .nan
      eps := (annualCol doc ["eps_diluted"]).getD i .nan
      tax := (annualCol doc ["income_tax"]).getD i .nan
      cfo := (annualCol doc ["cf_cfo", "cfo", "cash_flow_operating"]).getD i .nan
      capex := (annualCol doc ["capex", "capital_expenditures"]).getD i .nan
      fcfRep := (annualCol doc ["fcf", "free_cash_flow"]).getD i .nan
      equity := (annualCol doc ["total_equity", "total_stockholders_equity"]).getD i .nan
      assets := (annualCol doc ["total_assets"]).getD i .nan
      currLiab := (annualCol doc ["total_current_liabilities"]).getD i .nan
      debt := (annualCol doc ["total_debt"]).getD i .nan })

/-- Annual NOPAT (line 192): `df[op] - df[tax].fillna(0)`. -/
def nopat_annual (op tax : RVal) : RVal := op.sub (tax.fillna 0)

/-- Annual Free Cash Flow (lines 195-197):
`np.where(rep.notna() & (rep != 0), rep, cfo - capex.abs())`, elementwise. -/
def fcf_annual (fcfRep cfo capex : RVal) : RVal :=
  if fcfRep.notna ∧ fcfRep ≠ .num 0 then fcfRep else cfo.sub capex.abs

/-- Annual ROE (line 202): plain elementwise float division. -/
def roe_annual (ni equity : RVal) : RVal := ni.div equity

/-- Annual Invested Capital (line 205): `debt.fillna(0) + equity.fillna(0)`. -/
def invested_capital_annual (debt equity : RVal) : RVal :=
  (debt.fillna 0).add (equity.fillna 0)

/-- Annual ROIC (line 208). -/
def roic_annual (nopat debt equity : RVal) : RVal :=
  nopat.div (invested_capital_annual debt equity)

/-- Annual Capital Employed (line 211): `assets - currLiab`. -/
def capital_employed_annual (assets currLiab : RVal) : RVal := assets.sub currLiab

/-- Annual ROCE (line 214). -/
def roce_annual (op assets currLiab : RVal) : RVal :=
  op.div (capital_employed_annual assets currLiab)

/-- Annual CROIC (line 217). -/
def croic_annual (fcf debt equity : RVal) : RVal :=
  fcf.div (invested_capital_annual debt equity)

/-- An annual row with the derived columns of lines 190-217 attached. -/
structure DerivedRow where
  base : BaseRow
  nopat : RVal
  fcf : RVal
  roe : RVal
  roic : RVal
  roce : RVal
  croic : RVal
deriving DecidableEq

/-- Apply the derived-column formulas of lines 190-217 to one annual row. -/
def deriveRow (b : BaseRow) : DerivedRow :=
  let nopat := nopat_annual b.op b.tax
  let fcf := fcf_annual b.fcfRep b.cfo b.capex
  { base := b
    nopat := nopat
    fcf := fcf
    roe := roe_annual b.ni b.equity
    roic := roic_annual nopat b.debt b.equity
    roce := roce_annual b.op b.assets b.currLiab
    croic := croic_annual fcf b.debt b.equity }

/-- A Python exception raised inside `process_historical_data`. The only
raise point the claims exercise is `sum` over a list containing None. -/
inductive PyErr where
  | typeError : PyErr
deriving DecidableEq

instance instDecEqExcept {ε α : Type} [DecidableEq ε] [DecidableEq α] :
    DecidableEq (Except ε α) := fun x y =>
  match x, y with
  | .ok a, .ok b => if h : a = b then isTrue (by rw [h]) else isFalse (by simp [h])
  | .error e, .error f => if h : e = f then isTrue (by rw [h]) else isFalse (by simp [h])
  | .ok _, .error _ => isFalse (by simp)
  | .error _, .ok _ => isFalse (by simp)

/-- The message `str(e)` of the exception, abbreviated from the CPython
TypeError text (the exact wording is incidental to every claim). -/
def pyErrMsg : PyErr → String
  | .typeError => "unsupported operand type for +: int and NoneType"

/-- Python `sum`, left to right from 0: adding None raises TypeError. -/
def pySum (acc : ℚ) : List (Option ℚ) → Except PyErr ℚ
  | [] => .ok acc
  | none :: _ => .error .typeError
  | some q :: xs => pySum (acc + q) xs

/-- Python `arr[-4:]`: the last four entries (the whole list if shorter). -/
def lastFour (arr : List (Option ℚ)) : List (Option ℚ) :=
  arr.drop (arr.length - 4)

/-- `get_ttm_sum` (line 236): `sum(arr[-4:]) if arr and len(arr) >= 4 else
None`. When the last four slots contain a None, the `sum` raises. -/
def get_ttm_sum (arr : List (Option ℚ)) : Except PyErr (Option ℚ) :=
  if arr ≠ [] ∧ 4 ≤ arr.length then (pySum 0 (lastFour arr)).map some
  else .ok none

/-- `get_last` (line 237): the last entry, which may itself be None. -/
def get_last (arr : List (Option ℚ)) : Option ℚ :=
  match arr.getLast? with
  | some v => v
  | none => none

/-- Python `x or 0` on a number-or-None: None and 0 are falsy. -/
def pyOrZero : Option ℚ → ℚ
  | none => 0
  | some q => if q = 0 then 0 else q

/-- TTM NOPAT (lines 256-263): `op - (tax or 0)` when op is present,
otherwise None. -/
def ttmNopat (op tax : Option ℚ) : Option ℚ :=
  match op with
  | some v => some (v - pyOrZero tax)
  | none => none

/-- TTM Free Cash Flow (lines 265-268): `cfo - abs(capex)` when both are
present, otherwise None. -/
def ttmFcf (cfo capex : Option ℚ) : Option ℚ :=
  match cfo, capex with
  | some c, some k => some (c - |k|)
  | _, _ => none

/-- `safe_div` (line 278): `n / d if (n is not None and d) else None`;
a None or zero denominator is falsy. -/
def safe_div : Option ℚ → Option ℚ → Option ℚ
  | some n, some d => if d = 0 then none else some (n / d)
  | _, _ => none

/-- The synthetic TTM row (lines 239-283): every flow metric is a
last-four-quarters sum, every balance-sheet metric is the last quarterly
point, derived metrics and safe-division ratios on top. -/
structure TTMRow where
  rev : Option ℚ
  gp : Option ℚ
  op : Option ℚ
  ebitda : Option ℚ
  ni : Option ℚ
  eps : Option ℚ
  tax : Option ℚ
  cfo : Option ℚ
  capex : Option ℚ
  equity : Option ℚ
  assets : Option ℚ
  currLiab : Option ℚ
  debt : Option ℚ
  nopat : Option ℚ
  fcf : Option ℚ
  invCap : Option ℚ
  capEmp : Option ℚ
  roe : Option ℚ
  roic : Option ℚ
  roce : Option ℚ
  croic : Option ℚ
deriving DecidableEq

/-- Build the TTM row from the quarterly dict, evaluating the
`get_ttm_sum` calls in the order the Python dict literal evaluates them;
the first raising call aborts the whole construction. -/
def mkTTMRow (q : MetricDict) : Except PyErr TTMRow := do
  let rev ← get_ttm_sum (safe_get_list q ["revenue"])
  let gp ← get_ttm_sum (safe_get_list q ["gross_profit"])
  let op ← get_ttm_sum (safe_get_list q ["operating_income"])
  let ebitda ← get_ttm_sum (safe_get_list q ["ebitda"])
  let ni ← get_ttm_sum (safe_get_list q ["net_income"])
  let eps ← get_ttm_sum (safe_get_list q ["eps_diluted"])
  let tax ← get_ttm_sum (safe_get_list q ["income_tax"])
  let cfo ← get_ttm_sum (safe_get_list q ["cf_cfo", "cfo"])
  let capex ← get_ttm_sum (safe_get_list q ["capex"])
  let equity := get_last (safe_get_list q ["total_equity", "total_stockholders_equity"])
  let assets := get_last (safe_get_list q ["total_assets"])
  let currLiab := get_last (safe_get_list q ["total_current_liabilities"])
  let debt := get_last (safe_get_list q ["total_debt"])
  let invCapQ := pyOrZero debt + pyOrZero equity
  let capEmpQ := pyOrZero assets - pyOrZero currLiab
  let nopat := ttmNopat op tax
  let fcf := ttmFcf cfo capex
  pure
    { rev := rev, gp := gp, op := op, ebitda := ebitda, ni := ni, eps := eps
      tax := tax, cfo := cfo, capex := capex
      equity := equity, assets := assets, currLiab := currLiab, debt := debt
      nopat := nopat, fcf := fcf
      invCap := if invCapQ ≠ 0 then some invCapQ else none
      capEmp := if capEmpQ ≠ 0 then some capEmpQ else none
      roe := safe_div ni equity
      roic := safe_div nopat (some invCapQ)
      roce := safe_div op (some capEmpQ)
      croic := safe_div fcf (some invCapQ) }

/-- The outcome `process_historical_data` hands back to its caller: the
Python function returns either `(table, None)` or `(None, message)`. -/
inductive ProcResult where
  | ok (rows : List DerivedRow) (ttm : TTMRow)
  | err (msg : String)
deriving DecidableEq

/-- The body of the `try` block of `process_historical_data`: an empty
date axis is an early classified return, an exception escapes as
`Except.error` to be caught by the handler. -/
def processInner (doc : RawDoc) : Except PyErr ProcResult :=
  if doc.dates = [] then .ok (.err "No historical dates found.")
  else do
    let rows := (baseRows doc).map deriveRow
    let t ← mkTTMRow doc.quarterly
    pure (.ok rows t)

/-- `process_historical_data` (lines 141-299): the whole body runs inside
`try`, and the `except Exception` handler turns any raised exception into
the classified `Processing Error` result. -/
def process_historical_data (doc : RawDoc) : ProcResult :=
  match processInner doc with
  | .ok r => r
  | .error e => .err ("Processing Error: " ++ pyErrMsg e)

/-- Projection: the annual rows of a successful result. -/
def procRows : ProcResult → List DerivedRow
  | .ok rows _ => rows
  | .err _ => []

/-- Projection: the TTM row of a successful result. -/
def procTTM : ProcResult → Option TTMRow
  | .ok _ t => some t
  | .err _ => none

/-- Lookup in the (unreached) `financials.ttm` block of a document. -/
def ttmLookup (doc : RawDoc) (k : String) : Option ℚ :=
  (doc.ttm.find? (fun p => p.1 == k)).map (fun p => p.2)

/-- What one HTTP attempt against the upstream would yield: a response
with its status and body (None body = not valid JSON, otherwise the flag
says whether the parsed object has a top-level data key), or a raised
network exception with its message. -/
inductive Upstream where
  | resp (status : Nat) (body : Option Bool)
  | netExn (msg : String)
deriving DecidableEq

/-- The pair `fetch_quickfs_data` returns: `(data, None)` on success or
`(None, message)` on failure, with the payload abstracted away. -/
inductive FetchResult where
  | document : FetchResult
  | failure (msg : String)
deriving DecidableEq

/-- `fetch_quickfs_data` (lines 123-133) on one upstream outcome: any
non-200 status yields the generic API Error message carrying the status;
a 200 body without a data key yields the invalid-data message; a raised
exception (network failure, and likewise a JSON decode failure of a 200
body) is caught and its text returned. -/
def fetch_quickfs_data : Upstream → FetchResult
  | .netExn m => .failure m
  | .resp status body =>
    if status ≠ 200 then .failure ("API Error: " ++ toString status)
    else
      match body with
      | none => .failure "Expecting value: line 1 column 1 (char 0)"
      | some hasData => if hasData then .document else .failure "Invalid data received."

/-- A whole fetch call against an oracle of per-attempt outcomes: the
source performs a single `requests.get` with no retry loop, so only the
first prepared outcome is ever consumed and the attempt count is 1. The
second component is the number of HTTP attempts made. -/
def fetchRun (first : Upstream) (later : List Upstream) : FetchResult × Nat :=
  (fetch_quickfs_data first, 1)

/-! Concrete documents used to evaluate the pipeline at specific inputs. -/

/-- A document whose only annual metric is Operating Income = 200, with
Income Tax absent everywhere. -/
def c1doc : RawDoc := ⟨["2023-12-31"], [("operating_income", [some 200])], [], []⟩

/-- A document whose quarterly revenue sums to 122 over the last four
quarters while the (never read) ttm block carries revenue = 999. -/
def c2doc : RawDoc :=
  ⟨["2023-12-31"], [("revenue", [some 100])],
    [("revenue", [some 28, some 30, some 31, some 33])], [("revenue", 999)]⟩

/-- A document whose quarterly revenue array has four entries but only
three non-absent values among the last four slots. -/
def c3doc : RawDoc :=
  ⟨["2023-12-31"], [("revenue", [some 100])],
    [("revenue", [some 28, some 30, none, some 33])], []⟩

/-- A document with an annual Net Income of 100 against a Total Equity
of exactly zero. -/
def c4doc : RawDoc :=
  ⟨["2023-12-31"], [("net_income", [some 100]), ("total_equity", [some 0])], [], []⟩

/-- A document whose TTM Net Income is 100 while the last quarterly
Total Equity point is zero. -/
def c4docTTM : RawDoc :=
  ⟨["2023-12-31"], [],
    [("net_income", [some 25, some 25, some 25, some 25]), ("total_equity", [some 0])], []⟩

/-- A document with no period dates at all. -/
def emptyDoc : RawDoc := ⟨[], [], [], []⟩

/-- A document whose quarterly operating income has an absent slot among
the last four, making the TTM summation raise. -/
def c9doc : RawDoc :=
  ⟨["2023-12-31"], [("revenue", [some 5])],
    [("operating_income", [some 1, none, some 1, some 1])], []⟩

/-- An annual base row with every cell missing. -/
def allNanRow : BaseRow :=
  ⟨.nan, .nan, .nan, .nan, .nan, .nan, .nan, .nan, .nan, .nan, .nan, .nan, .nan, .nan⟩

/-! Theorems. The arithmetic operations of the Rat library are marked
irreducible, which blocks only the elaborator; re-marking them
semireducible for this file lets concrete pipeline runs be settled by
decide, with the kernel checking the same reductions it always could. -/

attribute [local semireducible] Rat.add Rat.sub Rat.mul Rat.inv

/-- C1 (counterexample). With Operating Income 200 and Income Tax absent,
the pipeline emits NOPAT = 200, not the 158.0 the claimed 21 percent
statutory-rate fallback would give: line 192 of src/app.py fills missing
tax with 0 instead of applying a rate. -/
theorem c1_counterexample :
    (procRows (process_historical_data c1doc)).map (fun r => r.nopat) = [RVal.num 200] ∧
    RVal.num 200 ≠ RVal.num 158 := by decide

/-- C1 (amended). For every period where Operating Income is present and
Income Tax is absent, NOPAT equals Operating Income minus zero, i.e.
Operating Income itself, on the annual rows (fillna 0) and on the TTM row
(or 0); the derived annual column is exactly nopat_annual applied
per row. -/
theorem c1_nopat_missing_tax (q : ℚ) (rb : BaseRow) :
    nopat_annual (RVal.num q) RVal.nan = RVal.num q ∧
    ttmNopat (some q) none = some q ∧
    (deriveRow rb).nopat = nopat_annual rb.op rb.tax := by
  refine ⟨?_, ?_, rfl⟩
  · simp [nopat_annual, RVal.fillna, RVal.sub]
  · simp [ttmNopat, pyOrZero]

/-- C2 (counterexample). The document c2doc carries an explicit
financials.ttm entry revenue = 999, yet the emitted TTM revenue is the
quarterly sum 122: the code never consults the ttm block. -/
theorem c2_counterexample :
    ttmLookup c2doc "revenue" = some 999 ∧
    (procTTM (process_historical_data c2doc)).map (fun t => t.rev) = some (some 122) ∧
    (some (some (122 : ℚ)) : Option (Option ℚ)) ≠ some (some 999) := by decide

/-- C2 (amended). TTM values are computed only by summing the last four
entries of the quarterly arrays: the output of the normalization is
invariant under arbitrary changes to the documents financials.ttm block,
and on c2doc the TTM revenue is the quarterly sum 122. -/
theorem c2_ttm_from_quarterly :
    (∀ (doc : RawDoc) (t : List (String × ℚ)),
      process_historical_data { doc with ttm := t } = process_historical_data doc) ∧
    (procTTM (process_historical_data c2doc)).map (fun t => t.rev) = some (some 122) := by
  refine ⟨?_, by decide⟩
  intro doc t
  cases doc
  rfl

/-- Summing a Python list that contains a None raises a TypeError
whatever the accumulator holds when the None is reached. -/
theorem pySum_error_of_none_mem (l : List (Option ℚ)) (h : none ∈ l) :
    ∀ acc : ℚ, pySum acc l = Except.error PyErr.typeError := by
  induction l with
  | nil => cases h
  | cons x xs ih =>
    intro acc
    cases x with
    | none => rfl
    | some q =>
      have hx : none ∈ xs := by
        rcases List.mem_cons.mp h with h1 | h2
        · exact absurd h1 (by simp)
        · exact h2
      exact ih hx _

/-- C3 (counterexample). On a quarterly array with only 3 of the last 4
slots non-absent (but length 4), the whole normalization fails with a
Processing Error instead of leaving that TTM metric absent. -/
theorem c3_counterexample :
    process_historical_data c3doc =
      ProcResult.err "Processing Error: unsupported operand type for +: int and NoneType" := by
  decide

/-- C3 (amended). get_ttm_sum leaves TTM absent exactly when the
quarterly array has fewer than 4 entries; when the array has at least 4
entries but an absent value sits among the last four, the sum raises a
TypeError (which aborts the whole normalization) rather than partially
summing. -/
theorem c3_ttm_incomplete (arr : List (Option ℚ)) :
    (arr.length < 4 → get_ttm_sum arr = Except.ok none) ∧
    (4 ≤ arr.length → none ∈ lastFour arr → get_ttm_sum arr = Except.error PyErr.typeError) := by
  constructor
  · intro h
    unfold get_ttm_sum
    rw [if_neg]
    rintro ⟨-, h4⟩
    omega
  · intro h4 hmem
    unfold get_ttm_sum
    rw [if_pos ⟨by rintro rfl; simp at h4, h4⟩]
    rw [pySum_error_of_none_mem _ hmem 0]
    rfl

/-- C3 (witness). The amended theorem evaluated at a 1-entry array and at
a 4-entry array holding a None among its last four slots. -/
theorem c3_witness :
    get_ttm_sum [some (1 : ℚ)] = Except.ok none ∧
    get_ttm_sum [some (1 : ℚ), none, some 1, some 1] = Except.error PyErr.typeError :=
  ⟨(c3_ttm_incomplete [some 1]).1 (by decide),
   (c3_ttm_incomplete [some 1, none, some 1, some 1]).2 (by decide) (by decide)⟩

/-- C4 (counterexample). With annual Net Income 100 and Total Equity
exactly 0, the ROE column of the output table holds positive infinity,
not an absent value: the annual ratios are plain float divisions (line
202), only filtered at display time. -/
theorem c4_counterexample :
    (procRows (process_historical_data c4doc)).map (fun r => r.roe) = [RVal.inf true] ∧
    RVal.inf true ≠ RVal.nan := by decide

/-- C4 (amended). Only the TTM row guards its ratios: safe_div returns
absent on an absent or zero denominator (so TTM ROE with equity 0 is
absent). On annual rows the float division puts a signed infinity in the
table when the denominator is 0 and the numerator nonzero, NaN when both
are 0 or when the denominator is absent; the annual ROE column is exactly
roe_annual per row. -/
theorem c4_ratio_safe (n : Option ℚ) (q : ℚ) (v : RVal) (rb : BaseRow) :
    safe_div n none = none ∧
    safe_div n (some 0) = none ∧
    (0 < q → RVal.div (RVal.num q) (RVal.num 0) = RVal.inf true) ∧
    (q < 0 → RVal.div (RVal.num q) (RVal.num 0) = RVal.inf false) ∧
    RVal.div (RVal.num 0) (RVal.num 0) = RVal.nan ∧
    RVal.div v RVal.nan = RVal.nan ∧
    (deriveRow rb).roe = roe_annual rb.ni rb.equity ∧
    (procTTM (process_historical_data c4docTTM)).map (fun t => t.roe) = some none := by
  refine ⟨?_, ?_, ?_, ?_, by simp [RVal.div], ?_, rfl, by decide⟩
  · cases n <;> rfl
  · cases n with
    | none => rfl
    | some x => simp [safe_div]
  · intro hq
    simp [RVal.div, ne_of_gt hq, hq]
  · intro hq
    simp [RVal.div, ne_of_lt hq, not_lt_of_lt hq]
  · cases v <;> rfl

/-- C4 (witness). The amended theorem evaluated at a present numerator
over a zero denominator (TTM side) and at 100 / 0 and -3 / 0 (annual
float side). -/
theorem c4_witness :
    safe_div (some (5 : ℚ)) (some 0) = none ∧
    RVal.div (RVal.num 100) (RVal.num 0) = RVal.inf true ∧
    RVal.div (RVal.num (-3)) (RVal.num 0) = RVal.inf false :=
  ⟨(c4_ratio_safe (some 5) 1 RVal.nan allNanRow).2.1,
   (c4_ratio_safe none 100 RVal.nan allNanRow).2.2.1 (by norm_num),
   (c4_ratio_safe none (-3) RVal.nan allNanRow).2.2.2.1 (by norm_num)⟩

/-- C5 (confirmed). Annual Free Cash Flow takes the reported field when
it is present and nonzero, falls back to operating cash flow minus the
absolute CapEx when the reported field is zero or NaN, and the fallback
is NaN (absent) whenever either operand is; the TTM row, which carries no
reported FCF, computes cfo - abs(capex) only when both are present. The
derived annual column is exactly fcf_annual per row. -/
theorem c5_fcf_fallback (r c k : ℚ) (cfo capex v : RVal) (rb : BaseRow) (hr : r ≠ 0) :
    fcf_annual (RVal.num r) cfo capex = RVal.num r ∧
    fcf_annual (RVal.num 0) cfo capex = cfo.sub capex.abs ∧
    fcf_annual RVal.nan cfo capex = cfo.sub capex.abs ∧
    RVal.sub RVal.nan v = RVal.nan ∧
    RVal.sub v RVal.nan = RVal.nan ∧
    ttmFcf (some c) (some k) = some (c - |k|) ∧
    ttmFcf none (some k) = none ∧
    ttmFcf (some c) none = none ∧
    ttmFcf none none = none ∧
    (deriveRow rb).fcf = fcf_annual rb.fcfRep rb.cfo rb.capex := by
  refine ⟨?_, ?_, ?_, ?_, ?_, rfl, rfl, rfl, rfl, rfl⟩
  · simp [fcf_annual, RVal.notna, hr]
  · simp [fcf_annual]
  · simp [fcf_annual, RVal.notna]
  · cases v <;> rfl
  · cases v <;> rfl

/-- C5 (witness). The theorem evaluated at a nonzero reported FCF of 7
and at TTM operands 10 and -4. -/
theorem c5_witness :
    fcf_annual (RVal.num 7) (RVal.num 10) (RVal.num (-4)) = RVal.num 7 ∧
    ttmFcf (some (10 : ℚ)) (some (-4)) = some 6 := by
  constructor
  · exact (c5_fcf_fallback 7 10 (-4) (RVal.num 10) (RVal.num (-4)) RVal.nan allNanRow
      (by norm_num)).1
  · have h := (c5_fcf_fallback 7 10 (-4) (RVal.num 10) (RVal.num (-4)) RVal.nan allNanRow
      (by norm_num)).2.2.2.2.2.1
    norm_num at h
    exact h

/-- C6 (counterexample). With a 500 response prepared for the first
attempt and a successful 200 for a second, the fetcher still performs
exactly one attempt and returns the API Error: there is no retry loop at
lines 123-133 of src/app.py. -/
theorem c6_counterexample :
    fetchRun (Upstream.resp 500 (some true)) [Upstream.resp 200 (some true)] =
      (FetchResult.failure "API Error: 500", 1) ∧
    (fetchRun (Upstream.resp 500 (some true)) [Upstream.resp 200 (some true)]).2 ≠ 2 := by
  decide

/-- C6 (amended). The fetcher makes exactly one HTTP attempt per call
whatever the upstream would answer later: a 5xx first outcome is returned
immediately as the generic API Error with no second attempt and no
backoff. -/
theorem c6_single_attempt (s : Nat) (b : Option Bool) (later : List Upstream) (h : 500 ≤ s) :
    fetchRun (.resp s b) later = (fetch_quickfs_data (.resp s b), 1) ∧
    (fetchRun (.resp s b) later).2 = 1 ∧
    fetch_quickfs_data (.resp s b) = .failure ("API Error: " ++ toString s) := by
  refine ⟨rfl, rfl, ?_⟩
  simp only [fetch_quickfs_data]
  rw [if_pos (by omega)]

/-- C6 (witness). The amended theorem evaluated at a 503 first outcome
with no further outcomes prepared. -/
theorem c6_witness :
    fetchRun (Upstream.resp 503 (some true)) [] =
      (fetch_quickfs_data (Upstream.resp 503 (some true)), 1) ∧
    fetch_quickfs_data (Upstream.resp 503 (some true)) =
      FetchResult.failure ("API Error: " ++ toString (503 : Nat)) :=
  ⟨(c6_single_attempt 503 (some true) [] (by decide)).1,
   (c6_single_attempt 503 (some true) [] (by decide)).2.2⟩

/-- C7 (counterexample). A 404 produces the same generic status-carrying
message every other non-200 status produces (API Error: 404, like API
Error: 503): there is no distinct unknown-identifier classification in
the code. -/
theorem c7_counterexample :
    fetch_quickfs_data (Upstream.resp 404 (some true)) =
      FetchResult.failure ("API Error: " ++ toString (404 : Nat)) ∧
    fetch_quickfs_data (Upstream.resp 503 (some true)) =
      FetchResult.failure ("API Error: " ++ toString (503 : Nat)) := by decide

/-- C7 (amended). The fetcher classifies outcomes as: 200 with a data key
gives the document; 200 without a data key gives the invalid-data
message; every non-200 status, 404 included, gives the one generic API
Error message carrying the status; a network exception gives its own
message. -/
theorem c7_outcome_classes (s : Nat) (b : Option Bool) (m : String) (h : s ≠ 200) :
    fetch_quickfs_data (.resp 200 (some true)) = .document ∧
    fetch_quickfs_data (.resp 200 (some false)) = .failure "Invalid data received." ∧
    fetch_quickfs_data (.resp s b) = .failure ("API Error: " ++ toString s) ∧
    fetch_quickfs_data (.netExn m) = .failure m := by
  refine ⟨rfl, rfl, ?_, rfl⟩
  simp only [fetch_quickfs_data]
  rw [if_pos h]

/-- C7 (witness). The amended theorem evaluated at status 418 with an
arbitrary body flag and a connection-refused network exception. -/
theorem c7_witness :
    fetch_quickfs_data (Upstream.resp 418 none) =
      FetchResult.failure ("API Error: " ++ toString (418 : Nat)) ∧
    fetch_quickfs_data (Upstream.netExn "Connection refused") =
      FetchResult.failure "Connection refused" :=
  ⟨(c7_outcome_classes 418 none "Connection refused" (by decide)).2.2.1,
   (c7_outcome_classes 418 none "Connection refused" (by decide)).2.2.2⟩

/-- C8 (confirmed). When Operating Income and Income Tax are both
present, NOPAT is their difference on the annual rows (fillna leaves a
present tax unchanged) and on the TTM row (x or 0 leaves a number
unchanged, with 0 mapping to 0); in particular 200 and 40 give 160. The
derived annual column is exactly nopat_annual per row. -/
theorem c8_nopat_both_present (a b : ℚ) (rb : BaseRow) :
    nopat_annual (RVal.num a) (RVal.num b) = RVal.num (a - b) ∧
    ttmNopat (some a) (some b) = some (a - b) ∧
    (deriveRow rb).nopat = nopat_annual rb.op rb.tax ∧
    nopat_annual (RVal.num 200) (RVal.num 40) = RVal.num 160 := by
  refine ⟨rfl, ?_, rfl, by decide⟩
  by_cases hb : b = 0 <;> simp [ttmNopat, pyOrZero, hb]

/-- C9 (confirmed). The normalization returns a classified result for
every document: either a table or an error message; an empty period axis
yields the classified no-dates message, and any exception the body
raises is caught and returned as a Processing Error message, never
propagated to the caller. -/
theorem c9_no_uncaught (doc : RawDoc) :
    ((∃ rows t, process_historical_data doc = ProcResult.ok rows t) ∨
      (∃ m, process_historical_data doc = ProcResult.err m)) ∧
    (doc.dates = [] →
      process_historical_data doc = ProcResult.err "No historical dates found.") ∧
    (∀ e, processInner doc = Except.error e →
      process_historical_data doc = ProcResult.err ("Processing Error: " ++ pyErrMsg e)) := by
  refine ⟨?_, ?_, ?_⟩
  · unfold process_historical_data
    cases processInner doc with
    | ok r =>
      cases r with
      | ok rows t => exact Or.inl ⟨rows, t, rfl⟩
      | err m => exact Or.inr ⟨m, rfl⟩
    | error e => exact Or.inr ⟨_, rfl⟩
  · intro h
    simp [process_historical_data, processInner, h]
  · intro e he
    unfold process_historical_data
    rw [he]

/-- C9 (witness). The theorem evaluated at the document with no dates
and at a document whose TTM summation raises a TypeError. -/
theorem c9_witness :
    process_historical_data emptyDoc = ProcResult.err "No historical dates found." ∧
    process_historical_data c9doc =
      ProcResult.err ("Processing Error: " ++ pyErrMsg PyErr.typeError) :=
  ⟨(c9_no_uncaught emptyDoc).2.1 rfl,
   (c9_no_uncaught c9doc).2.2 PyErr.typeError (by decide)⟩

/-- C10 (confirmed). The align step truncates an array at least as long
as the axis to its first axis-length entries (discarding the surplus at
the end, which holds the most recent periods since arrays are oldest
first), right-pads a shorter array with absent values, and always
returns exactly axis-length entries. -/
theorem c10_align_policy (arr : List (Option ℚ)) (l : Nat) :
    (l ≤ arr.length → align arr l = arr.take l) ∧
    (arr.length < l → align arr l = arr ++ List.replicate (l - arr.length) none) ∧
    (align arr l).length = l := by
  refine ⟨?_, ?_, ?_⟩
  · intro h
    unfold align
    rw [if_neg (by omega)]
  · intro h
    unfold align
    rw [if_pos h]
    have hlen : (arr ++ List.replicate (l - arr.length) none).length = l := by
      simp
      omega
    nth_rewrite 1 [← hlen]
    exact List.take_length _
  · unfold align
    split
    · simp
      omega
    · simp
      omega

/-- C10 (witness). The theorem evaluated at a 3-entry array truncated to
axis length 2 and at a 1-entry array padded to axis length 3. -/
theorem c10_witness :
    align [some (1 : ℚ), some 2, some 3] 2 = [some 1, some 2] ∧
    align [some (1 : ℚ)] 3 = [some 1, none, none] := by
  constructor
  · have h := (c10_align_policy [some 1, some 2, some 3] 2).1 (by decide)
    simpa using h
  · have h := (c10_align_policy [some 1] 3).2.1 (by decide)
    simpa using h

end Profitability
